import Mathlib

/-!
Shallow embedding of the RBAC engine described in src/docs/RBAC.md.

The authoritative code is the Python/SQL shown there:
- RBACManager.check_permission  (the ADP / hasPermission existence check),
- RBACManager.get_user_permissions  (listEffectivePermissions),
- RBACManager.assign_role  (grantRole),
- seed_permissions / DEFAULT_PERMISSIONS  (seedDefaultCatalog).

Tables are lists of rows.  Identifiers (UUIDs) are modelled as Nat,
timestamps as Nat, and SQL NULL as Option.  Columns that no modelled
query reads (password_hash, email, created_at, assigned_at, the
surrogate id of user_roles / role_permissions, ...) are omitted.
-/

/-- Row of the users table (columns consulted by the modelled queries:
id, is_active, organization_id; is_verified and is_system_user are kept
for fidelity to the schema). -/
structure User where
  id : Nat
  isActive : Bool
  isVerified : Bool
  isSystemUser : Bool
  organizationId : Option Nat
deriving DecidableEq

/-- Row of the roles table. -/
structure Role where
  id : Nat
  name : String
  isSystemRole : Bool
  isDefault : Bool
  organizationId : Option Nat
deriving DecidableEq

/-- Row of the permissions table. -/
structure Permission where
  id : Nat
  name : String
  resource : String
  action : String
  description : String
deriving DecidableEq

/-- Row of the user_roles table.  The schema gives is_active a default of
true and the unique constraint unique_user_role on (user_id, role_id). -/
structure UserRole where
  userId : Nat
  roleId : Nat
  assignedBy : Nat
  expiresAt : Option Nat
  isActive : Bool
deriving DecidableEq

/-- Row of the role_permissions table (unique on (role_id, permission_id)). -/
structure RolePermission where
  roleId : Nat
  permissionId : Nat
  grantedBy : Nat
deriving DecidableEq

/-- Row of the audit_logs table (shape only; no modelled operation writes it). -/
structure AuditLog where
  userId : Option Nat
  action : String
  resourceType : String
  createdAt : Nat
deriving DecidableEq

/-- The relational store: one list per table of the schema in RBAC.md
(organizations carries no column any modelled query reads, so it is
omitted). -/
structure Store where
  users : List User
  roles : List Role
  permissions : List Permission
  userRoles : List UserRole
  rolePermissions : List RolePermission
  auditLogs : List AuditLog
deriving DecidableEq

/-- SQL three-valued equality on nullable columns, collapsed to Bool:
NULL = x and x = NULL are not true. -/
def sqlEqOpt (a b : Option Nat) : Bool :=
  match a, b with
  | some x, some y => x == y
  | _, _ => false

/-- SQL condition expires_at > NOW() on a nullable column: NULL compares
not-true. -/
def expiresAfter (ur : UserRole) (now : Nat) : Bool :=
  match ur.expiresAt with
  | none => false
  | some t => now < t

/-- WHERE clause of the count query in RBACManager.check_permission,
clause for clause:
u.id = :user_id AND p.resource = :resource AND p.action = :action
AND u.is_active = true AND ur.is_active = true
AND (ur.expires_at IS NULL OR ur.expires_at > NOW())
AND (:org_id IS NULL OR u.organization_id = :org_id OR r.is_system_role = true). -/
def checkWhere (now uid : Nat) (res act : String) (orgId : Option Nat)
    (u : User) (ur : UserRole) (r : Role) (p : Permission) : Bool :=
  u.id == uid && p.resource == res && p.action == act &&
  u.isActive && ur.isActive &&
  (ur.expiresAt.isNone || expiresAfter ur now) &&
  (orgId.isNone || sqlEqOpt u.organizationId orgId || r.isSystemRole)

/-- Join rows of the SELECT COUNT(*) query in check_permission:
users JOIN user_roles ON u.id = ur.user_id JOIN roles ON ur.role_id = r.id
JOIN role_permissions ON r.id = rp.role_id
JOIN permissions ON rp.permission_id = p.id, filtered by checkWhere. -/
def checkRows (s : Store) (now uid : Nat) (res act : String) (orgId : Option Nat) :
    List (User × UserRole × Role × RolePermission × Permission) :=
  s.users.flatMap fun u =>
    (s.userRoles.filter fun ur => u.id == ur.userId).flatMap fun ur =>
      (s.roles.filter fun r => ur.roleId == r.id).flatMap fun r =>
        (s.rolePermissions.filter fun rp => r.id == rp.roleId).flatMap fun rp =>
          ((s.permissions.filter fun p => rp.permissionId == p.id).filter fun p =>
            checkWhere now uid res act orgId u ur r p).map fun p => (u, ur, r, rp, p)

/-- RBACManager.check_permission: returns result.scalar() > 0 of the count
query. -/
def check_permission (s : Store) (now uid : Nat) (res act : String)
    (orgId : Option Nat) : Bool :=
  decide (0 < (checkRows s now uid res act orgId).length)

/-- WHERE clause of the query in RBACManager.get_user_permissions:
u.id = :user_id AND u.is_active = true AND ur.is_active = true
AND (ur.expires_at IS NULL OR ur.expires_at > NOW()). -/
def gupWhere (now uid : Nat) (u : User) (ur : UserRole) : Bool :=
  u.id == uid && u.isActive && ur.isActive &&
  (ur.expiresAt.isNone || expiresAfter ur now)

/-- Projected rows of the SELECT in get_user_permissions (same join chain as
check_permission, no org clause), before DISTINCT. -/
def gupRows (s : Store) (now uid : Nat) : List (String × String × String × String) :=
  s.users.flatMap fun u =>
    (s.userRoles.filter fun ur => u.id == ur.userId).flatMap fun ur =>
      (s.roles.filter fun r => ur.roleId == r.id).flatMap fun r =>
        (s.rolePermissions.filter fun rp => r.id == rp.roleId).flatMap fun rp =>
          ((s.permissions.filter fun p => rp.permissionId == p.id).filter fun _ =>
            gupWhere now uid u ur).map fun p =>
              (p.resource, p.action, p.name, p.description)

/-- RBACManager.get_user_permissions: the DISTINCT rows of the query.  The
SQL ORDER BY p.resource, p.action only orders the presentation of the
result and is not modelled; all properties proved below are about which
tuples occur. -/
def get_user_permissions (s : Store) (now uid : Nat) :
    List (String × String × String × String) :=
  (gupRows s now uid).dedup

/-- Full effect of a call to RBACManager.check_permission on the store: the
method body runs a single SELECT (db.execute of the count query) and
returns the boolean; it contains no INSERT, UPDATE or DELETE, so the store
comes back unchanged. -/
def check_permission_call (s : Store) (now uid : Nat) (res act : String)
    (orgId : Option Nat) : Bool × Store :=
  (check_permission s now uid res act orgId, s)

/-- Admissibility of the INSERT issued by assign_role, per the schema of
user_roles: the foreign keys user_id, role_id, assigned_by must resolve and
the unique constraint unique_user_role on (user_id, role_id) must not be
violated. -/
def insertUserRoleOk (s : Store) (uid rid ab : Nat) : Bool :=
  (s.users.any fun u => u.id == uid) &&
  (s.roles.any fun r => r.id == rid) &&
  (s.users.any fun u => u.id == ab) &&
  !(s.userRoles.any fun e => e.userId == uid && e.roleId == rid)

/-- RBACManager.assign_role: wraps db.add of a new UserRole row plus
db.commit in try/except; on any failure of the insert (constraint or
foreign-key violation) the session is rolled back and False is returned,
otherwise the row is inserted (is_active defaulting to true per the
schema) and True is returned. -/
def assign_role (s : Store) (uid rid ab : Nat) (exp : Option Nat) : Bool × Store :=
  let row : UserRole :=
    { userId := uid, roleId := rid, assignedBy := ab, expiresAt := exp, isActive := true }
  if insertUserRoleOk s uid rid ab then
    (true, { s with userRoles := s.userRoles ++ [row] })
  else
    (false, s)

/-- One entry of the DEFAULT_PERMISSIONS catalog in scripts/seed_permissions.py. -/
structure PermSeed where
  name : String
  resource : String
  action : String
  description : String
deriving DecidableEq

/-- The DEFAULT_PERMISSIONS list of seed_permissions.py, in source order. -/
def DEFAULT_PERMISSIONS : List PermSeed :=
  [ { name := "system.admin", resource := "system", action := "admin",
      description := "Full system administration" },
    { name := "user.create", resource := "user", action := "create",
      description := "Create new users" },
    { name := "user.read", resource := "user", action := "read",
      description := "View user information" },
    { name := "user.update", resource := "user", action := "update",
      description := "Update user information" },
    { name := "user.delete", resource := "user", action := "delete",
      description := "Delete users" },
    { name := "knowledge_base.create", resource := "knowledge_base", action := "create",
      description := "Create knowledge bases" },
    { name := "knowledge_base.read", resource := "knowledge_base", action := "read",
      description := "View knowledge bases" },
    { name := "knowledge_base.update", resource := "knowledge_base", action := "update",
      description := "Update knowledge bases" },
    { name := "knowledge_base.delete", resource := "knowledge_base", action := "delete",
      description := "Delete knowledge bases" },
    { name := "analytics.read", resource := "analytics", action := "read",
      description := "View analytics" },
    { name := "analytics.admin", resource := "analytics", action := "admin",
      description := "Full analytics access" },
    { name := "conversation.create", resource := "conversation", action := "create",
      description := "Start conversations" },
    { name := "conversation.read", resource := "conversation", action := "read",
      description := "View conversations" },
    { name := "conversation.update", resource := "conversation", action := "update",
      description := "Update conversations" },
    { name := "conversation.delete", resource := "conversation", action := "delete",
      description := "Delete conversations" },
    { name := "scraping.submit", resource := "scraping", action := "submit",
      description := "Submit URLs for scraping" },
    { name := "scraping.admin", resource := "scraping", action := "admin",
      description := "Configure scraping settings" } ]

/-- Fresh surrogate id for a permission row created by the seeder (the SQL
default gen_random_uuid(); any id not already present serves). -/
def freshPermId (ps : List Permission) : Nat :=
  (ps.map Permission.id).foldr max 0 + 1

/-- Loop body of seed_permissions: for each catalog entry, query the
permissions table by name and add the row only when absent. -/
def seedLoop : List Permission → List PermSeed → List Permission
  | ps, [] => ps
  | ps, d :: rest =>
    if ps.any fun p => p.name == d.name then
      seedLoop ps rest
    else
      seedLoop (ps ++ [{ id := freshPermId ps, name := d.name, resource := d.resource,
                         action := d.action, description := d.description }]) rest

/-- seed_permissions of seed_permissions.py: runs the loop over
DEFAULT_PERMISSIONS and commits.  Only the permissions table is touched;
in particular no Role row is created. -/
def seed_permissions (s : Store) : Store :=
  { s with permissions := seedLoop s.permissions DEFAULT_PERMISSIONS }

/-- The empty store, the state before any seeding. -/
def emptyStore : Store :=
  { users := [], roles := [], permissions := [], userRoles := [],
    rolePermissions := [], auditLogs := [] }

example : check_permission emptyStore 0 1 "user" "read" none = false := by decide

example :
    ((seed_permissions emptyStore).permissions.map Permission.name).length = 17 := by
  decide

/-- Existence of a join row satisfying the WHERE clause of check_permission. -/
def CheckRowEx (s : Store) (now uid : Nat) (res act : String) (orgId : Option Nat) : Prop :=
  ∃ u ∈ s.users, ∃ ur ∈ s.userRoles, ∃ r ∈ s.roles, ∃ rp ∈ s.rolePermissions,
    ∃ p ∈ s.permissions,
      u.id = ur.userId ∧ ur.roleId = r.id ∧ r.id = rp.roleId ∧ rp.permissionId = p.id ∧
      checkWhere now uid res act orgId u ur r p = true

/-- Existence of a join row of get_user_permissions projecting to a given tuple. -/
def GupRowEx (s : Store) (now uid : Nat) (t : String × String × String × String) : Prop :=
  ∃ u ∈ s.users, ∃ ur ∈ s.userRoles, ∃ r ∈ s.roles, ∃ rp ∈ s.rolePermissions,
    ∃ p ∈ s.permissions,
      u.id = ur.userId ∧ ur.roleId = r.id ∧ r.id = rp.roleId ∧ rp.permissionId = p.id ∧
      gupWhere now uid u ur = true ∧ t = (p.resource, p.action, p.name, p.description)

lemma check_permission_iff (s : Store) (now uid : Nat) (res act : String)
    (orgId : Option Nat) :
    check_permission s now uid res act orgId = true ↔
      CheckRowEx s now uid res act orgId := by
  unfold check_permission CheckRowEx
  rw [decide_eq_true_iff, List.length_pos_iff_exists_mem]
  simp only [checkRows, List.mem_flatMap, List.mem_filter, List.mem_map, beq_iff_eq]
  constructor
  · rintro ⟨x, u, hu, ur, ⟨hur, h1⟩, r, ⟨hr, h2⟩, rp, ⟨hrp, h3⟩, p, ⟨⟨hp, h4⟩, h5⟩, -⟩
    exact ⟨u, hu, ur, hur, r, hr, rp, hrp, p, hp, h1, h2, h3, h4, h5⟩
  · rintro ⟨u, hu, ur, hur, r, hr, rp, hrp, p, hp, h1, h2, h3, h4, h5⟩
    exact ⟨(u, ur, r, rp, p), u, hu, ur, ⟨hur, h1⟩, r, ⟨hr, h2⟩, rp, ⟨hrp, h3⟩,
      p, ⟨⟨hp, h4⟩, h5⟩, rfl⟩

lemma get_user_permissions_iff (s : Store) (now uid : Nat)
    (t : String × String × String × String) :
    t ∈ get_user_permissions s now uid ↔ GupRowEx s now uid t := by
  unfold get_user_permissions GupRowEx
  rw [List.mem_dedup]
  simp only [gupRows, List.mem_flatMap, List.mem_filter, List.mem_map, beq_iff_eq]
  constructor
  · rintro ⟨u, hu, ur, ⟨hur, h1⟩, r, ⟨hr, h2⟩, rp, ⟨hrp, h3⟩, p, ⟨⟨hp, h4⟩, h5⟩, h6⟩
    exact ⟨u, hu, ur, hur, r, hr, rp, hrp, p, hp, h1, h2, h3, h4, h5, h6.symm⟩
  · rintro ⟨u, hu, ur, hur, r, hr, rp, hrp, p, hp, h1, h2, h3, h4, h5, h6⟩
    exact ⟨u, hu, ur, ⟨hur, h1⟩, r, ⟨hr, h2⟩, rp, ⟨hrp, h3⟩, p, ⟨⟨hp, h4⟩, h5⟩, h6.symm⟩

lemma expiresAfter_iff (ur : UserRole) (now : Nat) :
    expiresAfter ur now = true ↔ ∃ t, ur.expiresAt = some t ∧ now < t := by
  unfold expiresAfter
  cases h : ur.expiresAt <;> simp [h]

lemma sqlEqOpt_iff (a b : Option Nat) :
    sqlEqOpt a b = true ↔ ∃ x, a = some x ∧ b = some x := by
  unfold sqlEqOpt
  cases a with
  | none => simp
  | some m =>
    cases b with
    | none => simp
    | some n =>
      simp only [beq_iff_eq, Option.some.injEq]
      constructor
      · rintro rfl
        exact ⟨m, rfl, rfl⟩
      · rintro ⟨x, rfl, rfl⟩
        rfl

lemma checkWhere_eq_true_iff (now uid : Nat) (res act : String) (orgId : Option Nat)
    (u : User) (ur : UserRole) (r : Role) (p : Permission) :
    checkWhere now uid res act orgId u ur r p = true ↔
      u.id = uid ∧ p.resource = res ∧ p.action = act ∧
      u.isActive = true ∧ ur.isActive = true ∧
      (ur.expiresAt = none ∨ ∃ t, ur.expiresAt = some t ∧ now < t) ∧
      (orgId = none ∨ (∃ o, u.organizationId = some o ∧ orgId = some o) ∨
        r.isSystemRole = true) := by
  simp only [checkWhere, Bool.and_eq_true, Bool.or_eq_true, beq_iff_eq,
    Option.isNone_iff_eq_none, expiresAfter_iff, sqlEqOpt_iff, and_assoc, or_assoc]

lemma gupWhere_eq_true_iff (now uid : Nat) (u : User) (ur : UserRole) :
    gupWhere now uid u ur = true ↔
      u.id = uid ∧ u.isActive = true ∧ ur.isActive = true ∧
      (ur.expiresAt = none ∨ ∃ t, ur.expiresAt = some t ∧ now < t) := by
  simp only [gupWhere, Bool.and_eq_true, Bool.or_eq_true, beq_iff_eq,
    Option.isNone_iff_eq_none, expiresAfter_iff, and_assoc]

/-- C1: for every active user holding an effective (active, unexpired) grant
of a role, every permission attached to the role through role_permissions is
allowed by check_permission when called with the user's own organization as
the orgContext. -/
theorem effective_grant_allows (s : Store) (now : Nat) (u : User) (ur : UserRole)
    (r : Role) (rp : RolePermission) (p : Permission)
    (hu : u ∈ s.users) (hact : u.isActive = true)
    (hur : ur ∈ s.userRoles) (hlink : ur.userId = u.id) (hgact : ur.isActive = true)
    (hexp : ur.expiresAt = none ∨ ∃ t, ur.expiresAt = some t ∧ now < t)
    (hr : r ∈ s.roles) (hrid : r.id = ur.roleId)
    (hrp : rp ∈ s.rolePermissions) (hrpid : rp.roleId = r.id)
    (hp : p ∈ s.permissions) (hpid : p.id = rp.permissionId) :
    check_permission s now u.id p.resource p.action u.organizationId = true := by
  refine (check_permission_iff s now u.id p.resource p.action u.organizationId).mpr
    ⟨u, hu, ur, hur, r, hr, rp, hrp, p, hp, hlink.symm, hrid.symm, hrpid.symm, hpid.symm, ?_⟩
  refine (checkWhere_eq_true_iff now u.id p.resource p.action u.organizationId u ur r p).mpr
    ⟨rfl, rfl, rfl, hact, hgact, hexp, ?_⟩
  cases horg : u.organizationId with
  | none => exact Or.inl rfl
  | some o => exact Or.inr (Or.inl ⟨o, rfl, rfl⟩)

def c1u : User :=
  { id := 1, isActive := true, isVerified := true, isSystemUser := false,
    organizationId := some 10 }

def c1r : Role :=
  { id := 3, name := "Team Lead", isSystemRole := false, isDefault := false,
    organizationId := some 10 }

def c1p : Permission :=
  { id := 7, name := "conversation.read", resource := "conversation",
    action := "read", description := "View conversations" }

def c1g : UserRole :=
  { userId := 1, roleId := 3, assignedBy := 1, expiresAt := some 100, isActive := true }

def c1l : RolePermission := { roleId := 3, permissionId := 7, grantedBy := 1 }

def c1store : Store :=
  { users := [c1u], roles := [c1r], permissions := [c1p], userRoles := [c1g],
    rolePermissions := [c1l], auditLogs := [] }

/-- Witness for C1 at a concrete store: the grant expires at 100, the call is
made at time 5, and access is allowed. -/
theorem effective_grant_allows_witness :
    check_permission c1store 5 1 "conversation" "read" (some 10) = true :=
  effective_grant_allows c1store 5 c1u c1g c1r c1l c1p
    (by decide) (by decide) (by decide) (by decide) (by decide)
    (Or.inr ⟨100, rfl, by decide⟩) (by decide) (by decide) (by decide) (by decide)
    (by decide) (by decide)

def c2store : Store :=
  { users := [{ id := 1, isActive := true, isVerified := true, isSystemUser := false,
                organizationId := some 10 }],
    roles := [{ id := 1, name := "Super Admin", isSystemRole := true, isDefault := false,
                organizationId := none },
              { id := 2, name := "Org Role", isSystemRole := false, isDefault := false,
                organizationId := some 10 }],
    permissions := [{ id := 7, name := "knowledge_base.read", resource := "knowledge_base",
                      action := "read", description := "View knowledge bases" }],
    userRoles := [{ userId := 1, roleId := 1, assignedBy := 1, expiresAt := none,
                    isActive := true },
                  { userId := 1, roleId := 2, assignedBy := 1, expiresAt := none,
                    isActive := true }],
    rolePermissions := [{ roleId := 2, permissionId := 7, grantedBy := 1 }],
    auditLogs := [] }

/-- C2 counterexample: user 1 holds an effective grant of a system role
(role 1), and an effective role of user 1 (role 2) carries the permission
(knowledge_base, read); the claim then promises success regardless of the
orgContext argument, yet check_permission with orgContext 99 (a foreign
organization) returns false, because the org clause is evaluated on the
join row whose role carries the permission, and that role is not a system
role. -/
theorem system_role_bypass_not_global_cex :
    ((c2store.userRoles.any fun ur => ur.userId == 1 && ur.isActive && ur.expiresAt.isNone &&
        (c2store.roles.any fun r => r.id == ur.roleId && r.isSystemRole)) = true)
    ∧ ((c2store.userRoles.any fun ur => ur.userId == 1 && ur.isActive && ur.expiresAt.isNone &&
        (c2store.roles.any fun r => r.id == ur.roleId &&
          (c2store.rolePermissions.any fun rp => rp.roleId == r.id &&
            (c2store.permissions.any fun p => p.id == rp.permissionId &&
              p.resource == "knowledge_base" && p.action == "read")))) = true)
    ∧ check_permission c2store 5 1 "knowledge_base" "read" (some 99) = false := by
  decide

/-- C2 (amended): hasPermission (check_permission) succeeds exactly when one
single join row exists — an active user row, an effective grant of a role
that itself carries the requested (resource, action) permission — whose
organization clause holds: orgContext is null, or equals the user's
organization, or THAT role (the one carrying the permission) is a system
role.  The system-role bypass is judged per row, on the role carrying the
permission, not on any other role the user may hold; in particular a
cross-tenant request (orgContext non-null and different from the user's
organization) is denied unless the permission-carrying role itself is a
system role. -/
theorem has_permission_per_row_characterization (s : Store) (now uid : Nat)
    (res act : String) (orgId : Option Nat) :
    check_permission s now uid res act orgId = true ↔
      ∃ u ∈ s.users, ∃ ur ∈ s.userRoles, ∃ r ∈ s.roles, ∃ rp ∈ s.rolePermissions,
        ∃ p ∈ s.permissions,
          u.id = ur.userId ∧ ur.roleId = r.id ∧ r.id = rp.roleId ∧
          rp.permissionId = p.id ∧
          (u.id = uid ∧ p.resource = res ∧ p.action = act ∧
            u.isActive = true ∧ ur.isActive = true ∧
            (ur.expiresAt = none ∨ ∃ t, ur.expiresAt = some t ∧ now < t) ∧
            (orgId = none ∨ (∃ o, u.organizationId = some o ∧ orgId = some o) ∨
              r.isSystemRole = true)) := by
  rw [check_permission_iff]
  unfold CheckRowEx
  simp only [checkWhere_eq_true_iff]

lemma filter_false_nil {α : Type} (p : α → Bool) (l : List α)
    (h : ∀ a ∈ l, p a = false) : l.filter p = [] := by
  induction l with
  | nil => rfl
  | cons x xs ih =>
    simp [List.filter_cons, h x (List.mem_cons_self x xs),
      ih fun a ha => h a (List.mem_cons_of_mem x ha)]

lemma flatMap_nil_of {α β : Type} (f : α → List β) (l : List α)
    (h : ∀ a ∈ l, f a = []) : l.flatMap f = [] := by
  induction l with
  | nil => rfl
  | cons x xs ih =>
    simp [h x (List.mem_cons_self x xs),
      ih fun a ha => h a (List.mem_cons_of_mem x ha)]

lemma flatMap_congr_on {α β : Type} (l : List α) (f g : α → List β)
    (h : ∀ a ∈ l, f a = g a) : l.flatMap f = l.flatMap g := by
  induction l with
  | nil => rfl
  | cons x xs ih =>
    simp [h x (List.mem_cons_self x xs),
      ih fun a ha => h a (List.mem_cons_of_mem x ha)]

lemma flatMap_filter_middle_nil {α β : Type} (p : α → Bool) (f : α → List β)
    (A B : List α) (x : α) (h : f x = []) :
    ((A ++ x :: B).filter p).flatMap f = ((A ++ B).filter p).flatMap f := by
  rw [List.filter_append, List.filter_append, List.filter_cons]
  by_cases hp : p x = true
  · simp [hp, List.flatMap_append, h]
  · simp [hp]

lemma checkWhere_false_of_ineffective (now uid : Nat) (res act : String)
    (orgId : Option Nat) (u : User) (g : UserRole) (r : Role) (p : Permission)
    (hg : g.isActive = false ∨ ∃ t, g.expiresAt = some t ∧ t < now) :
    checkWhere now uid res act orgId u g r p = false := by
  unfold checkWhere
  rcases hg with h | ⟨t, ht, hlt⟩
  · simp [h]
  · have hnl : ¬ now < t := by omega
    simp [ht, expiresAfter, hnl]

lemma gupWhere_false_of_ineffective (now uid : Nat) (u : User) (g : UserRole)
    (hg : g.isActive = false ∨ ∃ t, g.expiresAt = some t ∧ t < now) :
    gupWhere now uid u g = false := by
  unfold gupWhere
  rcases hg with h | ⟨t, ht, hlt⟩
  · simp [h]
  · have hnl : ¬ now < t := by omega
    simp [ht, expiresAfter, hnl]

/-- C3: a user_roles row g that is revoked (is_active = false) or expired
(expires_at earlier than now) is inert for both read paths: removing g from
the table changes neither check_permission (for any uid, resource, action
and orgContext) nor get_user_permissions, even though the role_permissions
rows stay in place.  Revoked and expired rows are handled by the same WHERE
clause at read time, with no separate state transition. -/
theorem ineffective_grant_is_inert (s : Store) (l1 l2 : List UserRole)
    (g : UserRole) (now : Nat)
    (hg : g.isActive = false ∨ ∃ t, g.expiresAt = some t ∧ t < now) :
    (∀ uid res act orgId,
        check_permission { s with userRoles := l1 ++ g :: l2 } now uid res act orgId =
          check_permission { s with userRoles := l1 ++ l2 } now uid res act orgId) ∧
    (∀ uid,
        get_user_permissions { s with userRoles := l1 ++ g :: l2 } now uid =
          get_user_permissions { s with userRoles := l1 ++ l2 } now uid) := by
  have hrows : ∀ uid res act orgId,
      checkRows { s with userRoles := l1 ++ g :: l2 } now uid res act orgId =
        checkRows { s with userRoles := l1 ++ l2 } now uid res act orgId := by
    intro uid res act orgId
    unfold checkRows
    refine flatMap_congr_on _ _ _ fun u _ => ?_
    refine flatMap_filter_middle_nil _ _ _ _ _ ?_
    refine flatMap_nil_of _ _ fun r _ => ?_
    refine flatMap_nil_of _ _ fun rp _ => ?_
    rw [filter_false_nil _ _
      (fun p _ => checkWhere_false_of_ineffective now uid res act orgId u g r p hg),
      List.map_nil]
  have hgrows : ∀ uid,
      gupRows { s with userRoles := l1 ++ g :: l2 } now uid =
        gupRows { s with userRoles := l1 ++ l2 } now uid := by
    intro uid
    unfold gupRows
    refine flatMap_congr_on _ _ _ fun u _ => ?_
    refine flatMap_filter_middle_nil _ _ _ _ _ ?_
    refine flatMap_nil_of _ _ fun r _ => ?_
    refine flatMap_nil_of _ _ fun rp _ => ?_
    rw [filter_false_nil _ _
      (fun p _ => gupWhere_false_of_ineffective now uid u g hg),
      List.map_nil]
  constructor
  · intro uid res act orgId
    simp only [check_permission, hrows]
  · intro uid
    simp only [get_user_permissions, hgrows]

def c3store : Store :=
  { users := [{ id := 1, isActive := true, isVerified := true, isSystemUser := false,
                organizationId := some 10 }],
    roles := [{ id := 3, name := "Team Lead", isSystemRole := false, isDefault := false,
                organizationId := some 10 }],
    permissions := [{ id := 7, name := "conversation.read", resource := "conversation",
                      action := "read", description := "View conversations" }],
    userRoles := [],
    rolePermissions := [{ roleId := 3, permissionId := 7, grantedBy := 1 }],
    auditLogs := [] }

def c3g : UserRole :=
  { userId := 1, roleId := 3, assignedBy := 1, expiresAt := none, isActive := false }

/-- Witness for C3: a revoked grant of role 3 to user 1 resolves exactly as
if the grant row were absent. -/
theorem ineffective_grant_is_inert_witness :
    check_permission { c3store with userRoles := [c3g] } 5 1 "conversation" "read" none =
      check_permission { c3store with userRoles := [] } 5 1 "conversation" "read" none :=
  (ineffective_grant_is_inert c3store [] [] c3g 5 (Or.inl rfl)).1 1 "conversation" "read" none

def c4store : Store :=
  { users := [{ id := 1, isActive := true, isVerified := true, isSystemUser := false,
                organizationId := some 10 }],
    roles := [{ id := 2, name := "Org Role", isSystemRole := false, isDefault := false,
                organizationId := some 10 }],
    permissions := [],
    userRoles := [{ userId := 1, roleId := 2, assignedBy := 1, expiresAt := none,
                    isActive := false }],
    rolePermissions := [], auditLogs := [] }

/-- C4 counterexample: a user_roles row for (1, 2) already exists with
is_active = false.  The claim promises an upsert that updates this row and
sets is_active = true; assign_role instead returns False and leaves the
store unchanged, so afterwards there is still no active (1, 2) row. -/
theorem grant_role_no_upsert_cex :
    assign_role c4store 1 2 1 none = (false, c4store) ∧
    ((assign_role c4store 1 2 1 none).2.userRoles.any fun e =>
        e.userId == 1 && e.roleId == 2 && e.isActive) = false := by
  decide

/-- Uniqueness of the (user_id, role_id) key across the user_roles table,
the content of the unique_user_role constraint. -/
def urKeyUnique (l : List UserRole) : Prop :=
  l.Pairwise fun a b => ¬(a.userId = b.userId ∧ a.roleId = b.roleId)

/-- C4 (amended): assign_role does not upsert.  When a user_roles row for
(userId, roleId) already exists, the INSERT violates unique_user_role, the
transaction is rolled back, and the call returns False with the store
unchanged — the existing row is not modified.  The invariant that
(userId, roleId) is unique in user_roles is still preserved by every call,
by rejection of the duplicate rather than by update. -/
theorem assign_role_preserves_unique_key (s : Store) (uid rid ab : Nat)
    (exp : Option Nat) (h : urKeyUnique s.userRoles) :
    urKeyUnique (assign_role s uid rid ab exp).2.userRoles ∧
    ((∃ e ∈ s.userRoles, e.userId = uid ∧ e.roleId = rid) →
      assign_role s uid rid ab exp = (false, s)) := by
  have hdup : (∃ e ∈ s.userRoles, e.userId = uid ∧ e.roleId = rid) →
      assign_role s uid rid ab exp = (false, s) := by
    rintro ⟨e, he, h1, h2⟩
    have hany : (s.userRoles.any fun e => e.userId == uid && e.roleId == rid) = true :=
      List.any_eq_true.mpr ⟨e, he, by simp [h1, h2]⟩
    have hok : insertUserRoleOk s uid rid ab = false := by
      simp [insertUserRoleOk, hany]
    simp [assign_role, hok]
  refine ⟨?_, hdup⟩
  by_cases hok : insertUserRoleOk s uid rid ab = true
  · have hnodup : ∀ e ∈ s.userRoles, ¬(e.userId = uid ∧ e.roleId = rid) := by
      intro e he hcon
      have : (s.userRoles.any fun e => e.userId == uid && e.roleId == rid) = true :=
        List.any_eq_true.mpr ⟨e, he, by simp [hcon.1, hcon.2]⟩
      simp [insertUserRoleOk, this] at hok
    unfold assign_role
    simp only [hok, if_true]
    refine List.pairwise_append.mpr ⟨h, List.pairwise_singleton _ _, ?_⟩
    intro a ha b hb
    simp only [List.mem_singleton] at hb
    subst hb
    intro hcon
    exact hnodup a ha ⟨hcon.1, hcon.2⟩
  · rw [Bool.not_eq_true] at hok
    simp only [assign_role, hok, if_false]
    exact h

def c4g : UserRole :=
  { userId := 1, roleId := 2, assignedBy := 1, expiresAt := none, isActive := false }

/-- Witness for the amended C4 at the concrete store with an existing
(1, 2) row: the key stays unique and the regrant is rejected unchanged. -/
theorem assign_role_preserves_unique_key_witness :
    urKeyUnique (assign_role c4store 1 2 1 none).2.userRoles ∧
      assign_role c4store 1 2 1 none = (false, c4store) := by
  have h := assign_role_preserves_unique_key c4store 1 2 1 none
    (List.pairwise_singleton _ _)
  exact ⟨h.1, h.2 ⟨c4g, by decide, rfl, rfl⟩⟩

/-- C10: assign_role surfaces no exception and is atomic.  On any
inadmissible INSERT — a missing foreign key, or the violation of the unique
(user_id, role_id) constraint that arises exactly when re-granting an
already granted role — the transaction is rolled back, the call returns
False and the store is unchanged; on an admissible INSERT exactly one grant
row is appended and the call returns True. -/
theorem assign_role_atomic (s : Store) (uid rid ab : Nat) (exp : Option Nat) :
    (insertUserRoleOk s uid rid ab = false → assign_role s uid rid ab exp = (false, s)) ∧
    ((∃ e ∈ s.userRoles, e.userId = uid ∧ e.roleId = rid) →
      assign_role s uid rid ab exp = (false, s)) ∧
    (insertUserRoleOk s uid rid ab = true →
      assign_role s uid rid ab exp =
        (true, { s with userRoles := s.userRoles ++
          [{ userId := uid, roleId := rid, assignedBy := ab, expiresAt := exp,
             isActive := true }] })) := by
  refine ⟨fun hok => by simp [assign_role, hok], ?_, fun hok => by simp [assign_role, hok]⟩
  rintro ⟨e, he, h1, h2⟩
  have hany : (s.userRoles.any fun e => e.userId == uid && e.roleId == rid) = true :=
    List.any_eq_true.mpr ⟨e, he, by simp [h1, h2]⟩
  have hok : insertUserRoleOk s uid rid ab = false := by
    simp [insertUserRoleOk, hany]
  simp [assign_role, hok]

def c10store : Store :=
  { users := [{ id := 1, isActive := true, isVerified := true, isSystemUser := false,
                organizationId := some 10 }],
    roles := [{ id := 2, name := "Org Role", isSystemRole := false, isDefault := false,
                organizationId := some 10 }],
    permissions := [], userRoles := [], rolePermissions := [], auditLogs := [] }

/-- Witness for C10 on the success side: with user 1 and role 2 present and
no prior grant, the call returns True and appends exactly the one row. -/
theorem assign_role_atomic_witness :
    assign_role c10store 1 2 1 none =
      (true, { c10store with userRoles :=
        [{ userId := 1, roleId := 2, assignedBy := 1, expiresAt := none,
           isActive := true }] }) :=
  (assign_role_atomic c10store 1 2 1 none).2.2 (by decide)

/-- C5: the enumeration read path and the per-pair decision read path agree.
For a user row u (user ids being unique, as the primary key guarantees), a
pair (res, act) occurs — under some name and description — in
get_user_permissions of u.id exactly when check_permission allows
(res, act) for u.id with the user's own organization as the orgContext,
both evaluated at the same time now. -/
theorem list_permissions_agree_with_decision (s : Store) (now : Nat) (u : User)
    (hu : u ∈ s.users) (huniq : ∀ u' ∈ s.users, u'.id = u.id → u' = u)
    (res act : String) :
    (∃ nm d, (res, act, nm, d) ∈ get_user_permissions s now u.id) ↔
      check_permission s now u.id res act u.organizationId = true := by
  constructor
  · rintro ⟨nm, d, hmem⟩
    obtain ⟨u', hu', ur, hur, r, hr, rp, hrp, p, hp, h1, h2, h3, h4, h5, h6⟩ :=
      (get_user_permissions_iff s now u.id _).mp hmem
    obtain ⟨hid, hact, hgact, hexp⟩ := (gupWhere_eq_true_iff now u.id u' ur).mp h5
    simp only [Prod.mk.injEq] at h6
    obtain ⟨hres, hactn, -, -⟩ := h6
    obtain rfl := huniq u' hu' hid
    refine (check_permission_iff s now u'.id res act u'.organizationId).mpr
      ⟨u', hu', ur, hur, r, hr, rp, hrp, p, hp, h1, h2, h3, h4, ?_⟩
    refine (checkWhere_eq_true_iff now u'.id res act u'.organizationId u' ur r p).mpr
      ⟨rfl, hres.symm, hactn.symm, hact, hgact, hexp, ?_⟩
    cases horg : u'.organizationId with
    | none => exact Or.inl rfl
    | some o => exact Or.inr (Or.inl ⟨o, rfl, rfl⟩)
  · intro hchk
    obtain ⟨u', hu', ur, hur, r, hr, rp, hrp, p, hp, h1, h2, h3, h4, hw⟩ :=
      (check_permission_iff s now u.id res act u.organizationId).mp hchk
    obtain ⟨hid, hres, hactn, hact, hgact, hexp, -⟩ :=
      (checkWhere_eq_true_iff now u.id res act u.organizationId u' ur r p).mp hw
    refine ⟨p.name, p.description,
      (get_user_permissions_iff s now u.id _).mpr
        ⟨u', hu', ur, hur, r, hr, rp, hrp, p, hp, h1, h2, h3, h4, ?_, ?_⟩⟩
    · exact (gupWhere_eq_true_iff now u.id u' ur).mpr ⟨hid, hact, hgact, hexp⟩
    · simp [hres, hactn]

def c5u : User :=
  { id := 1, isActive := true, isVerified := true, isSystemUser := false,
    organizationId := some 10 }

def c5store : Store :=
  { users := [c5u],
    roles := [{ id := 3, name := "Regular User", isSystemRole := false, isDefault := true,
                organizationId := some 10 }],
    permissions := [{ id := 7, name := "conversation.read", resource := "conversation",
                      action := "read", description := "View conversations" }],
    userRoles := [{ userId := 1, roleId := 3, assignedBy := 1, expiresAt := none,
                    isActive := true }],
    rolePermissions := [{ roleId := 3, permissionId := 7, grantedBy := 1 }],
    auditLogs := [] }

/-- Witness for C5 at a concrete store. -/
theorem list_permissions_agree_with_decision_witness :
    (∃ nm d, ("conversation", "read", nm, d) ∈ get_user_permissions c5store 5 1) ↔
      check_permission c5store 5 1 "conversation" "read" (some 10) = true :=
  list_permissions_agree_with_decision c5store 5 c5u (by decide) (by decide)
    "conversation" "read"

/-- C6 counterexample: run on the empty store the seeder creates neither an
organization.read permission (nor any profile or user.invite row) nor any
Role row, contradicting the claimed catalog and role seeding. -/
theorem seed_catalog_missing_rows_cex :
    ((seed_permissions emptyStore).permissions.any fun p =>
        p.resource == "organization" && p.action == "read") = false ∧
    ((seed_permissions emptyStore).permissions.any fun p =>
        p.resource == "profile") = false ∧
    ((seed_permissions emptyStore).permissions.any fun p =>
        p.resource == "user" && p.action == "invite") = false ∧
    (seed_permissions emptyStore).roles = [] := by
  decide

/-- C6 (amended): after seed_permissions runs on the empty store, the
permissions table holds exactly the seventeen DEFAULT_PERMISSIONS rows, in
source order — system.admin, user.create/read/update/delete,
knowledge_base.create/read/update/delete, analytics.read/admin,
conversation.create/read/update/delete, scraping.submit/admin — one row per
(resource, action) pair; organization.read/update, user.invite and
profile.read/update are not in the catalog, and no Role rows are seeded. -/
theorem seed_catalog_exact :
    (seed_permissions emptyStore).permissions.map
        (fun p => (p.name, p.resource, p.action)) =
      [("system.admin", "system", "admin"),
       ("user.create", "user", "create"),
       ("user.read", "user", "read"),
       ("user.update", "user", "update"),
       ("user.delete", "user", "delete"),
       ("knowledge_base.create", "knowledge_base", "create"),
       ("knowledge_base.read", "knowledge_base", "read"),
       ("knowledge_base.update", "knowledge_base", "update"),
       ("knowledge_base.delete", "knowledge_base", "delete"),
       ("analytics.read", "analytics", "read"),
       ("analytics.admin", "analytics", "admin"),
       ("conversation.create", "conversation", "create"),
       ("conversation.read", "conversation", "read"),
       ("conversation.update", "conversation", "update"),
       ("conversation.delete", "conversation", "delete"),
       ("scraping.submit", "scraping", "submit"),
       ("scraping.admin", "scraping", "admin")] ∧
    (seed_permissions emptyStore).roles = [] := by
  constructor
  · rfl
  · rfl

lemma seedLoop_keeps_name (ps : List Permission) (cat : List PermSeed) (n : String)
    (h : (ps.any fun p => p.name == n) = true) :
    ((seedLoop ps cat).any fun p => p.name == n) = true := by
  induction cat generalizing ps with
  | nil => exact h
  | cons d rest ih =>
    unfold seedLoop
    cases hd : (ps.any fun p => p.name == d.name) with
    | true =>
      simp only [if_true]
      exact ih ps h
    | false =>
      simp only [Bool.false_eq_true, if_false]
      refine ih _ ?_
      simp [List.any_append, h]

lemma seedLoop_all_names (ps : List Permission) (cat : List PermSeed) :
    ∀ d ∈ cat, ((seedLoop ps cat).any fun p => p.name == d.name) = true := by
  induction cat generalizing ps with
  | nil =>
    intro d hd
    cases hd
  | cons c rest ih =>
    intro d hd
    rw [List.mem_cons] at hd
    unfold seedLoop
    cases hc : (ps.any fun p => p.name == c.name) with
    | true =>
      simp only [if_true]
      rcases hd with rfl | hd
      · exact seedLoop_keeps_name ps rest d.name hc
      · exact ih ps d hd
    | false =>
      simp only [Bool.false_eq_true, if_false]
      rcases hd with rfl | hd
      · refine seedLoop_keeps_name _ rest d.name ?_
        simp [List.any_append]
      · exact ih _ d hd

lemma seedLoop_noop (ps : List Permission) (cat : List PermSeed)
    (h : ∀ d ∈ cat, (ps.any fun p => p.name == d.name) = true) :
    seedLoop ps cat = ps := by
  induction cat with
  | nil => rfl
  | cons c rest ih =>
    unfold seedLoop
    rw [h c (List.mem_cons_self c rest)]
    simp only [if_true]
    exact ih fun d hd => h d (List.mem_cons_of_mem c hd)

/-- C7: seed_permissions is idempotent on every starting store: the second
run finds every catalog name already present, skips every row, adds no
duplicate Permission or Role row, raises nothing, and returns a store
identical to the one-run store. -/
theorem seed_permissions_idempotent (s : Store) :
    seed_permissions (seed_permissions s) = seed_permissions s := by
  have h := seedLoop_noop (seedLoop s.permissions DEFAULT_PERMISSIONS) DEFAULT_PERMISSIONS
    (seedLoop_all_names s.permissions DEFAULT_PERMISSIONS)
  simp [seed_permissions, h]

/-- C8 counterexample: a call to check_permission leaves the audit log with
exactly as many records as before — zero on the empty store — not the one
new record per call that the claim requires. -/
theorem decide_produces_no_audit_cex :
    ¬ ((check_permission_call emptyStore 0 1 "knowledge_base" "read" none).2.auditLogs.length
        = emptyStore.auditLogs.length + 1) := by
  decide

/-- C8 (amended): check_permission has no side effect at all.  The method
body is a single SELECT: the call appends no AuditRecord — the audit log
after the call is exactly the audit log before — and it never mutates
users, roles, permissions, user-role grants or role-permission links; its
boolean result is the pure decision. -/
theorem check_permission_call_pure (s : Store) (now uid : Nat) (res act : String)
    (orgId : Option Nat) :
    (check_permission_call s now uid res act orgId).2.users = s.users ∧
    (check_permission_call s now uid res act orgId).2.roles = s.roles ∧
    (check_permission_call s now uid res act orgId).2.permissions = s.permissions ∧
    (check_permission_call s now uid res act orgId).2.userRoles = s.userRoles ∧
    (check_permission_call s now uid res act orgId).2.rolePermissions = s.rolePermissions ∧
    (check_permission_call s now uid res act orgId).2.auditLogs = s.auditLogs ∧
    (check_permission_call s now uid res act orgId).1 =
      check_permission s now uid res act orgId :=
  ⟨rfl, rfl, rfl, rfl, rfl, rfl, rfl⟩

/-- Rewrite of the organizationId column of every roles row, leaving every
other column of every table alone. -/
def setRoleOrgs (g : Role → Option Nat) (s : Store) : Store :=
  { s with roles := s.roles.map fun r => { r with organizationId := g r } }

/-- C9: check_permission never consults the role's own organizationId
column: rewriting that column arbitrarily on every role changes no
decision; and whenever the orgContext argument is null or equal to the
user's own organization, a permission carried through any effective grant
of an active user is allowed — the role's own organizationId may name a
different organization without affecting the outcome. -/
theorem role_org_never_consulted :
    (∀ (g : Role → Option Nat) (s : Store) (now uid : Nat) (res act : String)
        (orgId : Option Nat),
        check_permission (setRoleOrgs g s) now uid res act orgId =
          check_permission s now uid res act orgId) ∧
    (∀ (s : Store) (now : Nat) (u : User) (ur : UserRole) (r : Role)
        (rp : RolePermission) (p : Permission) (orgId : Option Nat),
        u ∈ s.users → u.isActive = true →
        (orgId = none ∨ orgId = u.organizationId) →
        ur ∈ s.userRoles → ur.userId = u.id → ur.isActive = true →
        (ur.expiresAt = none ∨ ∃ t, ur.expiresAt = some t ∧ now < t) →
        r ∈ s.roles → r.id = ur.roleId →
        rp ∈ s.rolePermissions → rp.roleId = r.id →
        p ∈ s.permissions → p.id = rp.permissionId →
        check_permission s now u.id p.resource p.action orgId = true) := by
  constructor
  · intro g s now uid res act orgId
    rw [Bool.eq_iff_iff, check_permission_iff, check_permission_iff]
    unfold CheckRowEx
    constructor
    · rintro ⟨u, hu, ur, hur, r', hr', rp, hrp, p, hp, h1, h2, h3, h4, h5⟩
      simp only [setRoleOrgs, List.mem_map] at hr'
      obtain ⟨r, hr, rfl⟩ := hr'
      exact ⟨u, hu, ur, hur, r, hr, rp, hrp, p, hp, h1, h2, h3, h4, h5⟩
    · rintro ⟨u, hu, ur, hur, r, hr, rp, hrp, p, hp, h1, h2, h3, h4, h5⟩
      refine ⟨u, hu, ur, hur, { r with organizationId := g r }, ?_, rp, hrp, p, hp,
        h1, h2, h3, h4, h5⟩
      simp only [setRoleOrgs, List.mem_map]
      exact ⟨r, hr, rfl⟩
  · intro s now u ur r rp p orgId hu hact horg hur hlink hgact hexp hr hrid hrp hrpid hp hpid
    refine (check_permission_iff s now u.id p.resource p.action orgId).mpr
      ⟨u, hu, ur, hur, r, hr, rp, hrp, p, hp, hlink.symm, hrid.symm, hrpid.symm, hpid.symm, ?_⟩
    refine (checkWhere_eq_true_iff now u.id p.resource p.action orgId u ur r p).mpr
      ⟨rfl, rfl, rfl, hact, hgact, hexp, ?_⟩
    rcases horg with rfl | h
    · exact Or.inl rfl
    · cases ho : orgId with
      | none => exact Or.inl rfl
      | some o => exact Or.inr (Or.inl ⟨o, (h.symm.trans ho), rfl⟩)

def c9u : User :=
  { id := 1, isActive := true, isVerified := true, isSystemUser := false,
    organizationId := some 10 }

def c9r : Role :=
  { id := 3, name := "Foreign Role", isSystemRole := false, isDefault := false,
    organizationId := some 99 }

def c9p : Permission :=
  { id := 7, name := "conversation.read", resource := "conversation",
    action := "read", description := "View conversations" }

def c9g : UserRole :=
  { userId := 1, roleId := 3, assignedBy := 1, expiresAt := none, isActive := true }

def c9l : RolePermission := { roleId := 3, permissionId := 7, grantedBy := 1 }

def c9store : Store :=
  { users := [c9u], roles := [c9r], permissions := [c9p], userRoles := [c9g],
    rolePermissions := [c9l], auditLogs := [] }

/-- Witness for C9: the non-system role is scoped to organization 99 while
the user belongs to organization 10; with orgContext 10 the permission is
still allowed, the role's own organization being ignored. -/
theorem role_org_never_consulted_witness :
    check_permission c9store 5 1 "conversation" "read" (some 10) = true :=
  role_org_never_consulted.2 c9store 5 c9u c9g c9r c9l c9p (some 10)
    (by decide) (by decide) (Or.inr rfl) (by decide) (by decide) (by decide)
    (Or.inl rfl) (by decide) (by decide) (by decide) (by decide) (by decide) (by decide)

